import Mathlib

/-!
Shallow embedding of the walker file-browser core (src/app.rs and
src/view.rs) and verification of its specification claims.

The panel state machine (WalkerView / WalkerState in src/view.rs) is
embedded as pure functions on a WalkerState record.  The external
filesystem collaborator (Path::is_dir, WalkDir) is modelled by an
abstract FS value; the walkdir sequence for a path is given by FS.walk
(root entry first, then the name-sorted depth-1 children, as WalkDir
produces them).  Rust usize subtraction that can overflow (and hence
panic in a debug build) is modelled by returning an Option, with none
standing for the panic.
-/

/-- Kind of inline edit in progress, from enum EditingKind in src/app.rs. -/
inductive EditingKind where
  | Rename
  | Copy
  deriving DecidableEq

/-- Input mode of a panel, from enum InputMode in src/app.rs. -/
inductive InputMode where
  | Normal
  | Editing (kind : EditingKind)
  deriving DecidableEq

/-- Embedding of InputMode::is_copy (src/app.rs). -/
def InputMode.is_copy : InputMode → Bool
  | InputMode.Editing EditingKind.Copy => true
  | _ => false

/-- Embedding of InputMode::is_renaming (src/app.rs). -/
def InputMode.is_renaming : InputMode → Bool
  | InputMode.Editing EditingKind.Rename => true
  | _ => false

/-- Directory entry metadata, from struct Item in src/app.rs.  The
DateTime timestamp is modelled as seconds since the Unix epoch, so the
default Local.ymd(1970, 1, 1).and_hms(0, 0, 0) is 0. -/
structure Item where
  name : String
  size : Nat
  perms : String
  modified_date : Nat
  is_dir : Bool
  deriving DecidableEq

/-- Embedding of Item::default (src/app.rs lines 47-57). -/
def Item.default : Item :=
  { name := "", size := 0, perms := "", modified_date := 0, is_dir := false }

/-- Embedding of Item::new (src/app.rs). -/
def Item.new : Item := Item.default

/-- Embedding of the Item::with_name builder (src/app.rs). -/
def Item.with_name (it : Item) (name : String) : Item := { it with name := name }

/-- Embedding of the Item::with_size builder (src/app.rs). -/
def Item.with_size (it : Item) (size : Nat) : Item := { it with size := size }

/-- Embedding of the Item::with_perms builder (src/app.rs). -/
def Item.with_perms (it : Item) (perms : String) : Item := { it with perms := perms }

/-- Embedding of the Item::is_dir builder (src/app.rs; renamed here because
the field projection already carries that name). -/
def Item.with_is_dir (it : Item) (dir : Bool) : Item := { it with is_dir := dir }

/-- Subset of tui::widgets::TableState used by the core: the scroll offset
and the selected row, with select resetting the offset on deselection. -/
structure TableState where
  offset : Nat
  selected : Option Nat
  deriving DecidableEq

/-- Default TableState: no selection, offset 0. -/
def TableState.default : TableState := { offset := 0, selected := none }

/-- Embedding of TableState::select from the tui crate. -/
def TableState.select (t : TableState) (index : Option Nat) : TableState :=
  match index with
  | some i => { t with selected := some i }
  | none => { offset := 0, selected := none }

/-- Subset of tui_input::Input used by the core: the text content and the
cursor position. -/
structure Input where
  value : String
  cursor : Nat
  deriving DecidableEq

/-- Default Input: empty text, cursor 0. -/
def Input.default : Input := { value := "", cursor := 0 }

/-- Embedding of Input::with_value from the tui_input crate: replaces the
content and puts the cursor at its end. -/
def Input.with_value (i : Input) (v : String) : Input :=
  { i with value := v, cursor := v.length }

/-- Modelled from the spec: the external unix_mode crate's human-readable
rendering of permission bits (src/app.rs formats the mode in octal and
parses it back in radix 8, an identity on the bits, before rendering).
The exact string produced is irrelevant to every claim. -/
def unix_mode_to_string (mode : Nat) : String := toString mode

/-- Raw metadata of one walkdir entry as delivered by the external
filesystem: displayed path, byte length, permission mode bits. -/
structure RawEntry where
  name : String
  size : Nat
  mode : Nat
  deriving DecidableEq

/-- Modelled from the spec: the external filesystem / Directory Lister
collaborator.  isDir answers Path::is_dir; walk gives the WalkDir
iteration for a path with max_depth 1 sorted by file name, its first
entry being the root itself. -/
structure FS where
  isDir : String → Bool
  walk : String → List RawEntry

/-- Embedding of get_contents (src/app.rs lines 206-227): map every
walkdir entry through the builder chain, which sets only name, size and
perms, then skip the first entry (the root directory itself). -/
def get_contents (fs : FS) (path : String) : List Item :=
  ((fs.walk path).map (fun f =>
    ((Item.new.with_name f.name).with_size f.size).with_perms
      (unix_mode_to_string f.mode))).drop 1

/-- Panel state, from struct WalkerState in src/view.rs. -/
structure WalkerState where
  current_dir : String
  directory_table_state : TableState
  current_contents : List Item
  is_editing : Bool
  file_to_edit : Item
  editing_index : Nat
  input_mode : InputMode
  text_input : Input
  deriving DecidableEq

/-- Embedding of WalkerState::default (src/view.rs lines 20-33). -/
def WalkerState.default : WalkerState :=
  { current_dir := ""
    directory_table_state := TableState.default
    current_contents := []
    is_editing := false
    file_to_edit := Item.default
    editing_index := 0
    input_mode := InputMode.Normal
    text_input := Input.default }

/-- Embedding of WalkerView::load_dir (src/view.rs lines 69-72). -/
def load_dir (fs : FS) (s : WalkerState) : WalkerState :=
  { s with current_contents := get_contents fs s.current_dir }

/-- Embedding of WalkerView::set_current_dir (src/view.rs lines 53-59):
only when the path is a directory does it store the path and reload. -/
def set_current_dir (fs : FS) (dir : String) (s : WalkerState) : WalkerState :=
  if fs.isDir dir then load_dir fs { s with current_dir := dir } else s

/-- Embedding of WalkerView::move_selection_up (src/view.rs lines
110-120).  The wrap branch computes current_contents.len() - 1 on a
usize; with an empty list that subtraction overflows and the Rust
program panics in a debug build, modelled here as none. -/
def move_selection_up (s : WalkerState) : Option WalkerState :=
  match s.directory_table_state.selected with
  | none => some s
  | some selected =>
    if selected > 0 then
      some { s with directory_table_state :=
        s.directory_table_state.select (some (selected - 1)) }
    else if s.current_contents.length = 0 then
      none
    else
      some { s with directory_table_state :=
        s.directory_table_state.select (some (s.current_contents.length - 1)) }

/-- Embedding of WalkerView::move_selection_down (src/view.rs lines
122-130).  The comparison selected >= current_contents.len() - 1 again
computes len - 1 first, overflowing on an empty list (none = panic). -/
def move_selection_down (s : WalkerState) : Option WalkerState :=
  match s.directory_table_state.selected with
  | none => some s
  | some selected =>
    if s.current_contents.length = 0 then
      none
    else if selected ≥ s.current_contents.length - 1 then
      some { s with directory_table_state :=
        s.directory_table_state.select (some 0) }
    else
      some { s with directory_table_state :=
        s.directory_table_state.select (some (selected + 1)) }

/-- Modelled from the spec: std::path::Path::join on displayed path
strings (an absolute second component replaces the first); the exact
rendering is irrelevant to every claim. -/
def path_join (a b : String) : String :=
  if b.startsWith "/" then b else if a = "" then b else a ++ "/" ++ b

/-- Modelled from the spec: std::path::Path::parent on displayed path
strings, none at a filesystem root or on the empty path. -/
def path_parent (p : String) : Option String :=
  if p = "" || p = "/" then none
  else some (String.intercalate "/" ((p.splitOn "/").dropLast))

/-- Embedding of WalkerView::move_into_child_dir (src/view.rs lines
132-140): after calling set_current_dir on the joined child path it
unconditionally selects row 0. -/
def move_into_child_dir (fs : FS) (s : WalkerState) : WalkerState :=
  match s.directory_table_state.selected with
  | none => s
  | some idx =>
    match s.current_contents[idx]? with
    | none => s
    | some item =>
      let s1 := set_current_dir fs (path_join s.current_dir item.name) s
      { s1 with directory_table_state := s1.directory_table_state.select (some 0) }

/-- Embedding of WalkerView::move_upto_parent_dir (src/view.rs lines
142-149). -/
def move_upto_parent_dir (fs : FS) (s : WalkerState) : WalkerState :=
  match s.directory_table_state.selected with
  | none => s
  | some _ =>
    match path_parent s.current_dir with
    | none => s
    | some parent =>
      let s1 := set_current_dir fs parent s
      { s1 with directory_table_state := s1.directory_table_state.select (some 0) }

/-- Embedding of WalkerView::start_rename_file (src/view.rs lines
151-165): is_editing is set to true before the selection is checked, so
it is flipped even when nothing is selected. -/
def start_rename_file (s : WalkerState) : WalkerState :=
  let s0 := { s with is_editing := true }
  match s0.directory_table_state.selected with
  | none => s0
  | some idx =>
    match s0.current_contents[idx]? with
    | none => s0
    | some selected_item =>
      { s0 with file_to_edit := selected_item
                input_mode := InputMode.Editing EditingKind.Rename
                text_input := s0.text_input.with_value selected_item.name }

/-- Embedding of WalkerView::set_input_mode (src/view.rs lines 167-176):
only the Normal argument has an effect; it clears file_to_edit and
is_editing but leaves text_input untouched. -/
def set_input_mode (input_mode : InputMode) (s : WalkerState) : WalkerState :=
  match input_mode with
  | InputMode.Normal =>
    { s with file_to_edit := Item.default
             input_mode := input_mode
             is_editing := false }
  | InputMode.Editing _ => s

/-- Embedding of WalkerView::rename_file (src/view.rs lines 178-184).
The external std::fs::rename call is modelled by rename_fs, the effect
of the attempted rename on the filesystem (the identity when the rename
fails); the code discards its Result, so the state update is the same
on success and on failure, and the directory is reloaded against the
filesystem as it is after the attempt. -/
def rename_file (rename_fs : String → String → FS → FS) (fs : FS)
    (s : WalkerState) : WalkerState :=
  let name := s.text_input.value
  let fs1 := rename_fs s.file_to_edit.name name fs
  let s1 := set_input_mode InputMode.Normal s
  let s2 := { s1 with directory_table_state := s1.directory_table_state.select (some 0) }
  load_dir fs1 s2

/-- Embedding of WalkerView::initiate_file_copy (src/view.rs lines
186-195): like start_rename_file it sets is_editing before checking the
selection, and it never inspects the current input_mode. -/
def initiate_file_copy (s : WalkerState) : WalkerState :=
  let s0 := { s with is_editing := true }
  match s0.directory_table_state.selected with
  | none => s0
  | some idx =>
    match s0.current_contents[idx]? with
    | none => s0
    | some selected_item =>
      { s0 with file_to_edit := selected_item
                input_mode := InputMode.Editing EditingKind.Copy }

/-! Concrete inputs used by the per-claim witnesses and counterexamples. -/

/-- Panel state with an empty entry list but a live selection, as left
behind by descending into an empty directory (move_into_child_dir
selects row 0 unconditionally and set_current_dir never clears it). -/
def sC1 : WalkerState :=
  { WalkerState.default with
      directory_table_state := { offset := 0, selected := some 0 } }

/-- C1: the spec claims every operation is total and never panics, in
particular move_selection_up and move_selection_down with a selection
over an empty entry list.  The code violates this: with entries = [] and
selection Some(0) both operations evaluate current_contents.len() - 1,
a usize subtraction overflow that panics in a debug build (modelled as
none). -/
theorem move_selection_empty_panics :
    sC1.current_contents = [] ∧
    sC1.directory_table_state.selected = some 0 ∧
    move_selection_up sC1 = none ∧
    move_selection_down sC1 = none := by
  refine ⟨rfl, rfl, ?_, ?_⟩ <;> rfl

/-- Panel state with one entry and row 0 selected, used to witness the
wraparound theorem. -/
def sC2 : WalkerState :=
  { WalkerState.default with
      current_contents := [Item.default]
      directory_table_state := { offset := 0, selected := some 0 } }

/-- C2: for any entry list of length n ≥ 1 and selected index i < n,
moving Up then Down (and Down then Up) returns the panel to exactly the
starting state, including at both boundaries and for n = 1. -/
theorem selection_wraparound (s : WalkerState) (i : Nat)
    (hsel : s.directory_table_state.selected = some i)
    (hlen : i < s.current_contents.length) :
    (move_selection_up s).bind move_selection_down = some s ∧
    (move_selection_down s).bind move_selection_up = some s := by
  obtain ⟨cd, ⟨off, sel⟩, cc, ie, fte, ei, im, ti⟩ := s
  simp only at hsel hlen
  subst hsel
  have hcc : cc.length ≠ 0 := by omega
  rcases Nat.eq_zero_or_pos i with hi | hi
  · subst hi
    constructor
    · simp only [move_selection_up, move_selection_down, TableState.select,
        Option.bind, gt_iff_lt, Nat.lt_irrefl, if_false, hcc, if_neg hcc]
      simp [Nat.le_refl, hcc]
    · have h1 : cc.length - 1 < cc.length := by omega
      by_cases h0 : 0 ≥ cc.length - 1
      · simp only [move_selection_down, move_selection_up, TableState.select,
          Option.bind, if_neg hcc, if_pos h0]
        simp [hcc]
        omega
      · simp only [move_selection_down, move_selection_up, TableState.select,
          Option.bind, if_neg hcc, if_neg h0]
        simp [hcc]
  · constructor
    · have hup : i - 1 < cc.length - 1 := by omega
      simp only [move_selection_up, move_selection_down, TableState.select,
        Option.bind, gt_iff_lt, if_pos hi]
      simp only [if_neg hcc, if_neg (by omega : ¬ i - 1 ≥ cc.length - 1)]
      simp
      omega
    · by_cases hlast : i ≥ cc.length - 1
      · simp only [move_selection_down, move_selection_up, TableState.select,
          Option.bind, if_neg hcc, if_pos hlast]
        simp only [gt_iff_lt, Nat.lt_irrefl, if_false, if_neg hcc]
        simp
        omega
      · simp only [move_selection_down, move_selection_up, TableState.select,
          Option.bind, if_neg hcc, if_neg hlast]
        simp only [gt_iff_lt, Nat.succ_pos, if_pos (Nat.succ_pos i)]
        simp

/-- Witness for C2 at a concrete one-element list with index 0. -/
theorem selection_wraparound_witness :
    sC2.directory_table_state.selected = some 0 ∧
    0 < sC2.current_contents.length ∧
    ((move_selection_up sC2).bind move_selection_down = some sC2 ∧
     (move_selection_down sC2).bind move_selection_up = some sC2) :=
  ⟨rfl, by decide, selection_wraparound sC2 0 rfl (by decide)⟩

/-- Filesystem with a single directory "d" holding one child, used for
claim C3. -/
def fsC3 : FS :=
  { isDir := fun p => p == "d"
    walk := fun p =>
      if p = "d" then [{ name := "d", size := 0, mode := 16877 },
                       { name := "d/a", size := 3, mode := 420 }]
      else [] }

/-- Panel state whose selection sits at row 5, used for claim C3. -/
def sC3 : WalkerState :=
  { WalkerState.default with
      directory_table_state := { offset := 0, selected := some 5 } }

/-- C3 counterexample: set_current_dir on the valid directory "d" loads a
non-empty entry list yet leaves the selection at Some 5 instead of
resetting it to Some 0, refuting the claim that selection_index is reset
on a successful directory change. -/
theorem set_current_dir_no_selection_reset :
    fsC3.isDir "d" = true ∧
    (set_current_dir fsC3 "d" sC3).current_contents ≠ [] ∧
    (set_current_dir fsC3 "d" sC3).directory_table_state.selected = some 5 ∧
    (set_current_dir fsC3 "d" sC3).directory_table_state.selected ≠ some 0 := by
  refine ⟨rfl, ?_, rfl, ?_⟩ <;> decide

/-- C3 (amended): set_current_dir on an existing directory stores the
path and replaces the entries with the directory listing, but leaves the
whole selection state unchanged. -/
theorem set_current_dir_valid (fs : FS) (dir : String) (s : WalkerState)
    (h : fs.isDir dir = true) :
    (set_current_dir fs dir s).current_dir = dir ∧
    (set_current_dir fs dir s).current_contents = get_contents fs dir ∧
    (set_current_dir fs dir s).directory_table_state = s.directory_table_state := by
  simp [set_current_dir, load_dir, h]

/-- Witness for the amended C3 at the concrete filesystem fsC3. -/
theorem set_current_dir_valid_witness :
    fsC3.isDir "d" = true ∧
    ((set_current_dir fsC3 "d" sC3).current_dir = "d" ∧
     (set_current_dir fsC3 "d" sC3).current_contents = get_contents fsC3 "d" ∧
     (set_current_dir fsC3 "d" sC3).directory_table_state = sC3.directory_table_state) :=
  ⟨rfl, set_current_dir_valid fsC3 "d" sC3 rfl⟩

/-- Filesystem in which no path is a directory, used for claim C4. -/
def fsC4 : FS := { isDir := fun _ => false, walk := fun _ => [] }

/-- C4: set_current_dir with a path that is not an existing directory is
a complete no-op; the whole panel state is returned unchanged. -/
theorem set_current_dir_invalid (fs : FS) (dir : String) (s : WalkerState)
    (h : fs.isDir dir = false) :
    set_current_dir fs dir s = s := by
  simp [set_current_dir, h]

/-- Witness for C4 at a concrete filesystem without directories. -/
theorem set_current_dir_invalid_witness :
    fsC4.isDir "missing" = false ∧
    set_current_dir fsC4 "missing" WalkerState.default = WalkerState.default :=
  ⟨rfl, set_current_dir_invalid fsC4 "missing" WalkerState.default rfl⟩

/-- Panel state over an empty directory with no selection, used for
claim C5. -/
def sC5 : WalkerState := WalkerState.default

/-- C5 counterexample: on a panel with empty entries and no selection,
begin_rename and begin_copy are not complete no-ops: both flip
is_editing from false to true before the selection check fails. -/
theorem empty_dir_begin_ops_not_noop :
    sC5.current_contents = [] ∧
    sC5.directory_table_state.selected = none ∧
    sC5.is_editing = false ∧
    (start_rename_file sC5).is_editing = true ∧
    start_rename_file sC5 ≠ sC5 ∧
    initiate_file_copy sC5 ≠ sC5 := by
  refine ⟨rfl, rfl, rfl, rfl, ?_, ?_⟩ <;> decide

/-- C5 (amended): on a panel with empty entries and selection None,
move_selection in either direction is a complete no-op, while
begin_rename and begin_copy change exactly the is_editing flag to true,
leaving selection, mode, edit target and text buffer untouched; that
empty entries force selection None is not itself guaranteed. -/
theorem empty_dir_ops (s : WalkerState)
    (_hcc : s.current_contents = [])
    (hsel : s.directory_table_state.selected = none) :
    move_selection_up s = some s ∧
    move_selection_down s = some s ∧
    start_rename_file s = { s with is_editing := true } ∧
    initiate_file_copy s = { s with is_editing := true } := by
  refine ⟨?_, ?_, ?_, ?_⟩ <;>
    simp [move_selection_up, move_selection_down, start_rename_file,
      initiate_file_copy, hsel]

/-- Witness for the amended C5 at the concrete empty panel. -/
theorem empty_dir_ops_witness :
    sC5.current_contents = [] ∧
    sC5.directory_table_state.selected = none ∧
    (move_selection_up sC5 = some sC5 ∧
     move_selection_down sC5 = some sC5 ∧
     start_rename_file sC5 = { sC5 with is_editing := true } ∧
     initiate_file_copy sC5 = { sC5 with is_editing := true }) :=
  ⟨rfl, rfl, empty_dir_ops sC5 rfl rfl⟩

/-- Panel state mid-rename with a non-empty text buffer, used for claim
C6. -/
def sC6 : WalkerState :=
  { WalkerState.default with
      is_editing := true
      input_mode := InputMode.Editing EditingKind.Rename
      text_input := { value := "draft", cursor := 5 } }

/-- C6 counterexample: set_input_mode Normal does not clear the text
buffer; the buffer content "draft" survives the transition, refuting the
clears-text_buffer part of the claim. -/
theorem set_input_mode_keeps_buffer :
    (set_input_mode InputMode.Normal sC6).input_mode = InputMode.Normal ∧
    (set_input_mode InputMode.Normal sC6).text_input.value = "draft" ∧
    (set_input_mode InputMode.Normal sC6).text_input.value ≠ "" := by
  refine ⟨rfl, rfl, ?_⟩
  decide

/-- C6 (amended): set_input_mode Normal clears edit_target to the
default entry, sets the mode to Normal and is_editing to false, but
leaves the text buffer unchanged; set_input_mode with any Editing
argument is rejected as a complete no-op, so editing is entered only
through begin_rename or begin_copy. -/
theorem set_input_mode_spec (s : WalkerState) (k : EditingKind) :
    set_input_mode InputMode.Normal s =
      { s with file_to_edit := Item.default
               input_mode := InputMode.Normal
               is_editing := false } ∧
    (set_input_mode InputMode.Normal s).text_input = s.text_input ∧
    set_input_mode (InputMode.Editing k) s = s := by
  refine ⟨rfl, rfl, rfl⟩

/-- Helper: set_current_dir never touches the input mode. -/
lemma set_current_dir_keeps_input_mode (fs : FS) (dir : String) (s : WalkerState) :
    (set_current_dir fs dir s).input_mode = s.input_mode := by
  unfold set_current_dir load_dir
  split <;> rfl

/-- Helper: move_into_child_dir never touches the input mode. -/
lemma move_into_child_dir_keeps_input_mode (fs : FS) (s : WalkerState) :
    (move_into_child_dir fs s).input_mode = s.input_mode := by
  rcases h1 : s.directory_table_state.selected with _ | idx
  · simp [move_into_child_dir, h1]
  · rcases h2 : s.current_contents[idx]? with _ | item
    · simp [move_into_child_dir, h1, h2]
    · simp only [move_into_child_dir, h1, h2, TableState.select]
      exact set_current_dir_keeps_input_mode fs _ s

/-- Helper: move_upto_parent_dir never touches the input mode. -/
lemma move_upto_parent_dir_keeps_input_mode (fs : FS) (s : WalkerState) :
    (move_upto_parent_dir fs s).input_mode = s.input_mode := by
  rcases h1 : s.directory_table_state.selected with _ | idx
  · simp [move_upto_parent_dir, h1]
  · rcases h2 : path_parent s.current_dir with _ | parent
    · simp [move_upto_parent_dir, h1, h2]
    · simp only [move_upto_parent_dir, h1, h2, TableState.select]
      exact set_current_dir_keeps_input_mode fs _ s

/-- Helper: move_selection_up never touches the input mode (reading the
possibly-panicking result with the starting state as default). -/
lemma move_selection_up_keeps_input_mode (s : WalkerState) :
    ((move_selection_up s).getD s).input_mode = s.input_mode := by
  obtain ⟨cd, ⟨off, sel⟩, cc, ie, fte, ei, im, ti⟩ := s
  cases sel
  · rfl
  · simp only [move_selection_up, TableState.select]
    split_ifs <;> rfl

/-- Helper: move_selection_down never touches the input mode (reading
the possibly-panicking result with the starting state as default). -/
lemma move_selection_down_keeps_input_mode (s : WalkerState) :
    ((move_selection_down s).getD s).input_mode = s.input_mode := by
  obtain ⟨cd, ⟨off, sel⟩, cc, ie, fte, ei, im, ti⟩ := s
  cases sel
  · rfl
  · simp only [move_selection_down, TableState.select]
    split_ifs <;> rfl

/-- Panel state mid-rename with a valid selection, used for claim C7. -/
def sC7 : WalkerState :=
  { WalkerState.default with
      current_contents := [{ Item.default with name := "f.txt" }]
      directory_table_state := { offset := 0, selected := some 0 }
      is_editing := true
      input_mode := InputMode.Editing EditingKind.Rename }

/-- Filesystem without directories, used for claim C7. -/
def fsC7 : FS := { isDir := fun _ => false, walk := fun _ => [] }

/-- C7 counterexample: from Editing(Rename) with a valid selection,
initiate_file_copy is not rejected: it transitions the mode directly to
Editing(Copy), refuting the no-direct-transition part of the claim. -/
theorem begin_copy_not_rejected_in_rename :
    sC7.input_mode = InputMode.Editing EditingKind.Rename ∧
    sC7.directory_table_state.selected = some 0 ∧
    (initiate_file_copy sC7).input_mode = InputMode.Editing EditingKind.Copy ∧
    (initiate_file_copy sC7).input_mode ≠ sC7.input_mode := by
  refine ⟨rfl, rfl, rfl, ?_⟩
  decide

/-- C7 (amended): from Normal, none of the navigation operations,
set_input_mode, or submit-rename changes the mode — only begin_rename
and begin_copy can; but from Editing(Rename) with a valid selection,
begin_copy is not rejected: it moves the mode directly to Editing(Copy).
Panicking move results are read with getD against the start state. -/
theorem mode_exclusivity (fs fs2 : FS)
    (rn : String → String → FS → FS) (d : String) (m : InputMode)
    (s t : WalkerState) (j : Nat) (it : Item)
    (hN : s.input_mode = InputMode.Normal)
    (_hR : t.input_mode = InputMode.Editing EditingKind.Rename)
    (hsel : t.directory_table_state.selected = some j)
    (hget : t.current_contents[j]? = some it) :
    ((move_selection_up s).getD s).input_mode = InputMode.Normal ∧
    ((move_selection_down s).getD s).input_mode = InputMode.Normal ∧
    (set_current_dir fs d s).input_mode = InputMode.Normal ∧
    (move_into_child_dir fs s).input_mode = InputMode.Normal ∧
    (move_upto_parent_dir fs s).input_mode = InputMode.Normal ∧
    (set_input_mode m s).input_mode = InputMode.Normal ∧
    (rename_file rn fs2 s).input_mode = InputMode.Normal ∧
    (initiate_file_copy t).input_mode = InputMode.Editing EditingKind.Copy := by
  refine ⟨?_, ?_, ?_, ?_, ?_, ?_, ?_, ?_⟩
  · rw [move_selection_up_keeps_input_mode]; exact hN
  · rw [move_selection_down_keeps_input_mode]; exact hN
  · rw [set_current_dir_keeps_input_mode]; exact hN
  · rw [move_into_child_dir_keeps_input_mode]; exact hN
  · rw [move_upto_parent_dir_keeps_input_mode]; exact hN
  · cases m with
    | Normal => rfl
    | Editing k => exact hN
  · rfl
  · simp [initiate_file_copy, hsel, hget]

/-- Witness for the amended C7 at concrete panels in Normal and in
Editing(Rename) mode. -/
theorem mode_exclusivity_witness :
    WalkerState.default.input_mode = InputMode.Normal ∧
    sC7.input_mode = InputMode.Editing EditingKind.Rename ∧
    sC7.directory_table_state.selected = some 0 ∧
    sC7.current_contents[0]? = some { Item.default with name := "f.txt" } ∧
    (((move_selection_up WalkerState.default).getD WalkerState.default).input_mode = InputMode.Normal ∧
     ((move_selection_down WalkerState.default).getD WalkerState.default).input_mode = InputMode.Normal ∧
     (set_current_dir fsC7 "x" WalkerState.default).input_mode = InputMode.Normal ∧
     (move_into_child_dir fsC7 WalkerState.default).input_mode = InputMode.Normal ∧
     (move_upto_parent_dir fsC7 WalkerState.default).input_mode = InputMode.Normal ∧
     (set_input_mode InputMode.Normal WalkerState.default).input_mode = InputMode.Normal ∧
     (rename_file (fun _ _ f => f) fsC7 WalkerState.default).input_mode = InputMode.Normal ∧
     (initiate_file_copy sC7).input_mode = InputMode.Editing EditingKind.Copy) :=
  ⟨rfl, rfl, rfl, rfl,
    mode_exclusivity fsC7 fsC7 (fun _ _ f => f) "x" InputMode.Normal
      WalkerState.default sC7 0 { Item.default with name := "f.txt" }
      rfl rfl rfl rfl⟩

/-- C8: submit-rename (rename_file) — whatever the external rename did
to the filesystem, success or failure — exits to Normal mode, resets the
selection to row 0, keeps the current directory, and reloads the entries
from the post-rename filesystem; nothing is retried or rolled back (the
result is the same deterministic function of the post-rename
filesystem). -/
theorem rename_file_spec (rn : String → String → FS → FS) (fs : FS)
    (s : WalkerState)
    (_h : s.input_mode = InputMode.Editing EditingKind.Rename) :
    (rename_file rn fs s).input_mode = InputMode.Normal ∧
    (rename_file rn fs s).directory_table_state.selected = some 0 ∧
    (rename_file rn fs s).current_dir = s.current_dir ∧
    (rename_file rn fs s).current_contents =
      get_contents (rn s.file_to_edit.name s.text_input.value fs) s.current_dir :=
  ⟨rfl, rfl, rfl, rfl⟩

/-- Panel state mid-rename used to witness claim C8, with a filesystem
on which the attempted rename fails (modelled as the identity). -/
def sC8 : WalkerState :=
  { WalkerState.default with
      current_dir := "d"
      is_editing := true
      input_mode := InputMode.Editing EditingKind.Rename
      text_input := { value := "b.txt", cursor := 5 } }

/-- Filesystem used to witness claim C8. -/
def fsC8 : FS :=
  { isDir := fun p => p == "d"
    walk := fun p =>
      if p = "d" then [{ name := "d", size := 0, mode := 16877 },
                       { name := "d/a.txt", size := 1, mode := 420 }]
      else [] }

/-- Witness for C8 at a concrete mid-rename panel with a failing rename. -/
theorem rename_file_spec_witness :
    sC8.input_mode = InputMode.Editing EditingKind.Rename ∧
    ((rename_file (fun _ _ f => f) fsC8 sC8).input_mode = InputMode.Normal ∧
     (rename_file (fun _ _ f => f) fsC8 sC8).directory_table_state.selected = some 0 ∧
     (rename_file (fun _ _ f => f) fsC8 sC8).current_dir = sC8.current_dir ∧
     (rename_file (fun _ _ f => f) fsC8 sC8).current_contents =
       get_contents ((fun _ _ f => f : String → String → FS → FS)
         sC8.file_to_edit.name sC8.text_input.value fsC8) sC8.current_dir) :=
  ⟨rfl, rename_file_spec (fun _ _ f => f) fsC8 sC8 rfl⟩

/-- Filesystem without directories, used for claim C9. -/
def fsC9 : FS := { isDir := fun _ => false, walk := fun _ => [] }

/-- Panel state with two plain-file entries and row 1 selected, used for
claim C9. -/
def sC9 : WalkerState :=
  { WalkerState.default with
      current_dir := "c"
      current_contents := [{ Item.default with name := "a" },
                           { Item.default with name := "b" }]
      directory_table_state := { offset := 0, selected := some 1 } }

/-- C9 counterexample: with row 1 selected on a non-directory entry,
enter_selected_directory (move_into_child_dir) keeps the directory and
the entries but still resets the selection to row 0, so the selection
value i = 1 is not unchanged as the claim states. -/
theorem move_into_child_nondir_resets_selection :
    ((sC9.current_contents[1]?).getD Item.default).is_dir = false ∧
    fsC9.isDir (path_join sC9.current_dir
      ((sC9.current_contents[1]?).getD Item.default).name) = false ∧
    sC9.directory_table_state.selected = some 1 ∧
    (move_into_child_dir fsC9 sC9).current_dir = sC9.current_dir ∧
    (move_into_child_dir fsC9 sC9).current_contents = sC9.current_contents ∧
    (move_into_child_dir fsC9 sC9).directory_table_state.selected = some 0 ∧
    (move_into_child_dir fsC9 sC9).directory_table_state.selected ≠ some 1 := by
  refine ⟨rfl, rfl, rfl, ?_, ?_, ?_, ?_⟩ <;> decide

/-- C9 (amended): with selection Some i on an entry whose joined child
path is not a directory, enter_selected_directory leaves
current_directory and entries unchanged (set_directory fails its
internal precondition), but it unconditionally resets the selection to
Some 0 afterwards, so the selection value i itself is preserved only
when i = 0. -/
theorem move_into_child_nondir (fs : FS) (s : WalkerState) (i : Nat)
    (it : Item)
    (hsel : s.directory_table_state.selected = some i)
    (hget : s.current_contents[i]? = some it)
    (hnd : fs.isDir (path_join s.current_dir it.name) = false) :
    (move_into_child_dir fs s).current_dir = s.current_dir ∧
    (move_into_child_dir fs s).current_contents = s.current_contents ∧
    (move_into_child_dir fs s).directory_table_state.selected = some 0 := by
  simp [move_into_child_dir, hsel, hget, set_current_dir, hnd,
    TableState.select]

/-- Witness for the amended C9 at the concrete two-entry panel. -/
theorem move_into_child_nondir_witness :
    sC9.directory_table_state.selected = some 1 ∧
    sC9.current_contents[1]? = some { Item.default with name := "b" } ∧
    fsC9.isDir (path_join sC9.current_dir "b") = false ∧
    ((move_into_child_dir fsC9 sC9).current_dir = sC9.current_dir ∧
     (move_into_child_dir fsC9 sC9).current_contents = sC9.current_contents ∧
     (move_into_child_dir fsC9 sC9).directory_table_state.selected = some 0) :=
  ⟨rfl, rfl, rfl,
    move_into_child_nondir fsC9 sC9 1 { Item.default with name := "b" }
      rfl rfl rfl⟩

/-- C10: every Entry produced by get_contents keeps the default false
is_dir flag and the default epoch timestamp, because the builder chain
in the listing sets only name, size and perms. -/
theorem get_contents_item_defaults (fs : FS) (p : String) (it : Item)
    (h : it ∈ get_contents fs p) :
    it.is_dir = false ∧ it.modified_date = Item.default.modified_date := by
  unfold get_contents at h
  have h2 := List.drop_subset _ _ h
  rcases List.mem_map.mp h2 with ⟨f, -, rfl⟩
  exact ⟨rfl, rfl⟩

/-- Filesystem with one directory "r" holding a single child, used to
witness claim C10. -/
def fsC10 : FS :=
  { isDir := fun p => p == "r"
    walk := fun p =>
      if p = "r" then [{ name := "r", size := 0, mode := 16877 },
                       { name := "r/a", size := 3, mode := 420 }]
      else [] }

/-- Listed Item for the child of "r" in fsC10. -/
def itC10 : Item :=
  { name := "r/a", size := 3, perms := unix_mode_to_string 420,
    modified_date := 0, is_dir := false }

/-- Witness for C10 at the concrete listing of "r". -/
theorem get_contents_item_defaults_witness :
    itC10 ∈ get_contents fsC10 "r" ∧
    (itC10.is_dir = false ∧ itC10.modified_date = Item.default.modified_date) :=
  ⟨by decide, get_contents_item_defaults fsC10 "r" itC10 (by decide)⟩
